import Mathlib

/-!
# pg_ai: chat-gpt service callbacks and the image aggregate

A shallow embedding of `src/service_chat_gpt.c` and `src/pg_ai_image.c`.

* C strings are lists of characters (one `Char` per C `char`, the
  terminating NUL left out); `strcpy` / `strcat` are assignment / append.
* A linked list of `ServiceOption` is a `List`, head first.
* A function that can leave the normal path returns an `Exec`: it returns
  normally, raises a PostgreSQL error (`ereport(ERROR, ...)`), or its
  behaviour is undefined in C (a NULL or mistyped pointer is dereferenced, a
  fixed buffer is overrun).
* Constants, tables and helpers of headers that are not under `src/` are
  fields of `Consts` and `Host`, or are modelled from the specification
  where their doc comment says so.
-/

set_option autoImplicit false

namespace PgAi

/-- A C string, without its terminating NUL. -/
abbrev CString := List Char

/-- How a call ends: normal return, `ereport(ERROR, ...)`, or undefined behaviour. -/
inductive Exec (α : Type) where
  | ok (v : α)
  | raised (msg : CString)
  | undefined
  deriving DecidableEq, Repr

/-- The codes handed to `GET_ERR_TEXT` in `pg_ai_image.c`. -/
inductive ErrCode where
  | UNSUPPORTED_SERVICE
  | INVALID_OPTIONS
  | INT_DATA_ERR
  | INT_PREP_TNSFR
  deriving DecidableEq, Repr

/-- The macros of the headers that are not under `src/`, as parameters. -/
structure Consts where
  RETURN_ERROR : Int
  RETURN_ERROR_ne_zero : RETURN_ERROR ≠ 0
  CHAT_GPT_FUNCTION_GET_INSIGHT : Nat
  CHAT_GPT_FUNCTION_GET_INSIGHT_AGGREGATE : Nat
  FUNCTION_GENERATE_IMAGE : Nat
  FUNCTION_GENERATE_IMAGE_AGGREGATE : Nat
  OPTION_PROVIDER_KEY : CString
  OPTION_PROVIDER_KEY_DESC : CString
  OPTION_INSIGHT_COLUMN : CString
  OPTION_INSIGHT_COLUMN_DESC : CString
  OPTION_SERVICE_PROMPT : CString
  OPTION_SERVICE_PROMPT_DESC : CString
  OPTION_SERVICE_PROMPT_AGG : CString
  CHAT_GPT_SUMMARY_PROMPT : CString
  CHAT_GPT_AGG_PROMPT : CString
  SERVICE_PROVIDER_OPEN_AI : CString
  SERVICE_CHAT_GPT : CString
  CHAT_GPT_DESCRIPTION : CString
  CHAT_GPT_API_URL : CString
  SERVICE_MAX_REQUEST_SIZE : Nat
  SERVICE_MAX_RESPONSE_SIZE : Nat
  /-- Number of chars of the array `ServiceData.request`. -/
  SERVICE_DATA_SIZE : Nat
  GET_ERR_TEXT : ErrCode → CString

/-- The macro `RETURN_ZERO` of a header that is not under `src/`: zero, as its
name says and as the callers, which test `if (return_value)`, need. -/
def RETURN_ZERO : Int := 0

/-- Modelled from the spec: the macro `HTTP_OK` of a header that is not under
`src/`; the spec gives the success status as 200. -/
def HTTP_OK : Nat := 200

/-- Modelled from the spec: the macro `RESPONSE_JSON_CHOICE` of a header that is
not under `src/`; the spec and the comment in `chat_gpt_rest_transfer` name the
array `choices`. -/
def RESPONSE_JSON_CHOICE : CString := "choices".toList

/-- Modelled from the spec: the macro `RESPONSE_JSON_KEY` of a header that is not
under `src/`; the spec and the comment in `chat_gpt_rest_transfer` name the
field `text`. -/
def RESPONSE_JSON_KEY : CString := "text".toList

/-! ## Options -/

/-- One node of the option list (`ServiceOption`, without its `next` pointer). -/
structure ServiceOption where
  name : CString
  description : CString
  value : CString
  provider : Bool
  required : Bool
  is_set : Bool
  deriving DecidableEq, Repr

/-- Modelled from the spec: `define_new_option`, which is not under `src/`.
"appends an Option if `name` is not already present"; the list is left as it is
otherwise. -/
def define_new_option (options : List ServiceOption) (name description : CString)
    (provider required : Bool) : List ServiceOption :=
  if options.any (fun o => o.name == name) then options
  else options ++ [{ name := name, description := description, value := [],
                     provider := provider, required := required, is_set := false }]

/-- Modelled from the spec: `set_option_value`, which is not under `src/`.
"overwrites `value` and sets `is_set = true`"; an absent name changes nothing
(the callers ignore the returned code). -/
def set_option_value : List ServiceOption → CString → CString → List ServiceOption
  | [], _, _ => []
  | o :: rest, name, value =>
    if o.name == name then { o with value := value, is_set := true } :: rest
    else o :: set_option_value rest name value

/-- Modelled from the spec: `get_option_value`, which is not under `src/`.
The value of the named option; `none` (a NULL pointer) "if absent or unset". -/
def get_option_value : List ServiceOption → CString → Option CString
  | [], _ => none
  | o :: rest, name =>
    if o.name == name then (if o.is_set then some o.value else none)
    else get_option_value rest name

/-! ## Service structures -/

/-- The fields of `ServiceData` that the code under `src/` reads or writes. -/
structure ServiceData where
  provider : CString
  name : CString
  description : CString
  options : List ServiceOption
  url : CString
  request : CString
  max_request_size : Nat
  response : CString
  max_response_size : Nat
  deriving DecidableEq, Repr

/-- Bookkeeping of `RestRequest`; its `data` pointer is `service_data->request`
(`chat_gpt_set_service_buffers`). -/
structure RestRequest where
  max_size : Nat
  deriving DecidableEq, Repr

/-- Bookkeeping of `RestResponse`; its `data` pointer is `service_data->response`
(`chat_gpt_set_service_buffers`), so the bytes live in `ServiceData.response`. -/
structure RestResponse where
  max_size : Nat
  data_size : Nat
  response_code : Nat
  deriving DecidableEq, Repr

/-- The fields of `AIService` that the code under `src/` reads or writes.
`service_data`, `rest_request` and `rest_response` are pointers: `none` is
NULL, as `palloc0` leaves them. `service_data` is set by
`chat_gpt_init_service_options`, the two transfer structures by
`init_rest_transfer`, which `chat_gpt_init_service_data` calls. The callbacks
installed by `initialize_service` are kept apart, in `Service`. -/
structure AIService where
  function_flags : Nat
  service_data : Option ServiceData
  rest_request : Option RestRequest
  rest_response : Option RestResponse
  deriving DecidableEq, Repr

/-- Result of `palloc0(sizeof(AIService))`: every field zero, every pointer
NULL. -/
def palloc0_AIService : AIService :=
  { function_flags := 0, service_data := none, rest_request := none, rest_response := none }

/-- Result of `palloc0(sizeof(ServiceData))`: every field zero. -/
def palloc0_ServiceData : ServiceData :=
  { provider := [], name := [], description := [], options := [], url := [],
    request := [], max_request_size := 0, response := [], max_response_size := 0 }

/-- A transfer outcome: the status and the raw bytes that the transport
`rest_transfer` leaves at `rest_response->data`; `data_size` is their number. A
byte may be NUL. -/
structure Outcome where
  response_code : Nat
  bytes : List Char
  deriving DecidableEq, Repr

/-- The NUL byte. -/
def NUL : Char := Char.ofNat 0

/-- The body of an outcome read as a C string, as the code reads
`(char*)(rest_response->data)` once it has written a NUL at `data_size`: the
bytes before the first NUL. -/
def Outcome.body (outcome : Outcome) : CString :=
  outcome.bytes.takeWhile (fun c => c != NUL)

/-- The collaborators outside the repository's `src/`, as parameters: the
transport, the PostgreSQL JSON accessors (`none`: the call raises or returns
NULL, which `DirectFunctionCall2` turns into an error), and the set-up of the
transfer structures. -/
structure Host where
  rest_transfer : AIService → Outcome
  json_object_field_text : CString → CString → Option CString
  json_array_element_text : CString → Nat → Option CString
  init_rest_transfer : AIService → RestRequest × RestResponse

/-! ## service_chat_gpt.c -/

/-- The static `define_options` of `service_chat_gpt.c`, on the `ServiceData`
that `ai_service->service_data` points at. -/
def define_options (K : Consts) (service_data : ServiceData) : ServiceData :=
  let o1 := define_new_option service_data.options K.OPTION_PROVIDER_KEY
              K.OPTION_PROVIDER_KEY_DESC true true
  let o2 := define_new_option o1 K.OPTION_INSIGHT_COLUMN
              K.OPTION_INSIGHT_COLUMN_DESC true true
  let o3 := define_new_option o2 K.OPTION_SERVICE_PROMPT
              K.OPTION_SERVICE_PROMPT_DESC false true
  { service_data with options := o3 }

/-- The function `chat_gpt_init_service_options`. -/
def chat_gpt_init_service_options (K : Consts) (ai_service : AIService) : AIService :=
  let service_data : ServiceData :=
    { palloc0_ServiceData with
      provider := K.SERVICE_PROVIDER_OPEN_AI
      name := K.SERVICE_CHAT_GPT
      description := K.CHAT_GPT_DESCRIPTION }
  { ai_service with service_data := some (define_options K service_data) }

/-- What a function call carries (`PG_FUNCTION_ARGS`): `args n` is argument
`n` as a C string, `none` when `PG_ARGISNULL(n)`; `agg_context` is the answer
of `AggCheckCallContext`. -/
structure FunctionCallInfo where
  args : Nat → Option CString
  agg_context : Bool

/-- The loop at the end of `chat_gpt_set_and_validate_options` (lines
102-123): the return code, and the option named in the INFO report
`Required value for option "%s" missing.` when there is one. -/
def validate_walk (K : Consts) : List ServiceOption → Int × Option CString
  | [] => (RETURN_ZERO, none)
  | options :: next =>
    if options.is_set then validate_walk K next
    else if options.required then (K.RETURN_ERROR, some options.name)
    else validate_walk K next

/-- An argument is stored under an option name unless it is NULL. -/
def set_if_not_null (options : List ServiceOption) (name : CString)
    (arg : Option CString) : List ServiceOption :=
  match arg with
  | none => options
  | some v => set_option_value options name v

/-- The function `chat_gpt_set_and_validate_options`: return code, the option
reported missing, and the service with its options stored. -/
def chat_gpt_set_and_validate_options (K : Consts) (ai_service : AIService)
    (fcinfo : FunctionCallInfo) : Exec ((Int × Option CString) × AIService) :=
  match ai_service.service_data with
  | none => .undefined
  | some service_data =>
    let arg_offset : Nat :=
      if ai_service.function_flags &&& K.CHAT_GPT_FUNCTION_GET_INSIGHT_AGGREGATE ≠ 0 then 1 else 0
    let o1 := set_if_not_null service_data.options K.OPTION_PROVIDER_KEY
                (fcinfo.args (1 + arg_offset))
    let o2 := set_if_not_null o1 K.OPTION_INSIGHT_COLUMN (fcinfo.args (2 + arg_offset))
    let o3 :=
      match fcinfo.args (3 + arg_offset) with
      | some v => set_option_value o2 K.OPTION_SERVICE_PROMPT v
      | none =>
        let o := if ai_service.function_flags &&& K.CHAT_GPT_FUNCTION_GET_INSIGHT ≠ 0
                 then set_option_value o2 K.OPTION_SERVICE_PROMPT K.CHAT_GPT_SUMMARY_PROMPT
                 else o2
        if ai_service.function_flags &&& K.CHAT_GPT_FUNCTION_GET_INSIGHT_AGGREGATE ≠ 0
        then set_option_value o K.OPTION_SERVICE_PROMPT_AGG K.CHAT_GPT_AGG_PROMPT
        else o
    .ok (validate_walk K o3,
         { ai_service with service_data := some { service_data with options := o3 } })

/-- Whether an option fails validation: required and not set. -/
def missing (o : ServiceOption) : Bool := o.required && !o.is_set

/-- The function `chat_gpt_init_service_data`: `strcpy` of the prompt into
`service_data->request`, then `strcat` of ` "`, the column data and `"`. The
array holds `SERVICE_DATA_SIZE` chars, the terminating NUL included; a NULL
source or an overrun of the array is undefined behaviour. No length is
compared with `max_request_size`. -/
def chat_gpt_init_service_data (K : Consts) (H : Host) (ai_service : AIService)
    (data : CString) : Exec (Int × AIService) :=
  match ai_service.service_data with
  | none => .undefined
  | some service_data =>
    let column_data : Option CString :=
      if ai_service.function_flags &&& K.CHAT_GPT_FUNCTION_GET_INSIGHT ≠ 0
      then get_option_value service_data.options K.OPTION_INSIGHT_COLUMN
      else some data
    match get_option_value service_data.options K.OPTION_SERVICE_PROMPT, column_data with
    | some service_prompt, some column_data =>
      let request := service_prompt ++ " \"".toList ++ column_data ++ "\"".toList
      if request.length + 1 ≤ K.SERVICE_DATA_SIZE then
        let service_data :=
          { service_data with
            max_request_size := K.SERVICE_MAX_REQUEST_SIZE
            max_response_size := K.SERVICE_MAX_RESPONSE_SIZE
            url := K.CHAT_GPT_API_URL
            request := request }
        let ai_service := { ai_service with service_data := some service_data }
        let bufs := H.init_rest_transfer ai_service
        .ok (RETURN_ZERO,
          { ai_service with rest_request := some bufs.1, rest_response := some bufs.2 })
      else .undefined
    | _, _ => .undefined

/-- The function `chat_gpt_set_service_buffers`: the two `data` pointers are
aimed at `service_data->request` and `service_data->response`, the sizes are
copied. -/
def chat_gpt_set_service_buffers (rest_request : RestRequest) (rest_response : RestResponse)
    (service_data : ServiceData) : RestRequest × RestResponse :=
  ({ rest_request with max_size := service_data.max_request_size },
   { rest_response with max_size := service_data.max_response_size })

/-- What `snprintf(buf, size, "<text>%s", arg)` leaves in `buf`: at most
`size - 1` chars of the formatted text. -/
def snprintf_s (size : Nat) (text arg : CString) : CString :=
  (text ++ arg).take (size - 1)

/-- The libcurl call `curl_slist_append`: the string is added at the end. -/
def curl_slist_append (list : List CString) (s : CString) : List CString :=
  list ++ [s]

/-- The function `chat_gpt_add_service_headers`; `key_header` is `char[128]`. -/
def chat_gpt_add_service_headers (K : Consts) (headers : List CString)
    (ai_service : AIService) : Exec (Int × List CString) :=
  match ai_service.service_data with
  | none => .undefined
  | some service_data =>
    match get_option_value service_data.options K.OPTION_PROVIDER_KEY with
    | none => .undefined
    | some key =>
      let curl_headers := curl_slist_append headers "Content-Type: application/json".toList
      let key_header := snprintf_s 128 "Authorization: Bearer ".toList key
      let curl_headers := curl_slist_append curl_headers key_header
      .ok (RETURN_ZERO, curl_headers)

/-- The macro `CHAT_GPT_PREFIX`. -/
def CHAT_GPT_PREFIX : CString := "\x7b\"model\":".toList

/-- The macro `CHAT_GPT_DAVINCI_MODEL`. -/
def CHAT_GPT_DAVINCI_MODEL : CString := "\"text-davinci-003\", \"prompt\":\"".toList

/-- The macro `CHAT_GPT_POST_PROMPT`. -/
def CHAT_GPT_POST_PROMPT : CString := "\", \"max_tokens\": 1024 \x7d".toList

/-- The function `chat_gpt_post_header_maker`: what it leaves in `buffer`.
It returns `void` and does not read `maxlen`, "the max length the buffer can
accomodate": a longer text overruns the buffer. -/
def chat_gpt_post_header_maker (maxlen : Nat) (data : CString) : Exec CString :=
  let buffer := CHAT_GPT_PREFIX ++ CHAT_GPT_DAVINCI_MODEL ++ data ++ CHAT_GPT_POST_PROMPT
  if buffer.length ≤ maxlen then .ok buffer else .undefined

/-- The last loop of `chat_gpt_rest_transfer` ("remove prefexing \n"): every
newline before the first other char becomes a space. -/
def blank_leading_newlines : CString → CString
  | [] => []
  | c :: rest => if c ≠ '\n' then c :: rest else ' ' :: blank_leading_newlines rest

/-- The text copied by `chat_gpt_rest_transfer` when the transfer gave no
success status and no byte. -/
def TRY_AGAIN : CString := "Something is not ok, try again.".toList

/-- The function `chat_gpt_rest_transfer`. The transport writes the bytes at
`rest_response->data`, which is `service_data->response`, and line 277 ends
them with a NUL at `data_size`, through the pointer `rest_response`: a NULL
`rest_response` or `service_data` is undefined behaviour. The buffer is then
read as a C string. `DirectFunctionCall2` raises when a JSON accessor gives no
value. -/
def chat_gpt_rest_transfer (H : Host) (ai_service : AIService) : Exec AIService :=
  match ai_service.service_data, ai_service.rest_response with
  | some service_data, some rest_response =>
    let outcome := H.rest_transfer ai_service
    let rest_response :=
      { rest_response with
        data_size := outcome.bytes.length
        response_code := outcome.response_code }
    let finish (response : CString) : AIService :=
      { ai_service with
        rest_response := some rest_response
        service_data := some { service_data with response := blank_leading_newlines response } }
    if rest_response.response_code = HTTP_OK then
      match H.json_object_field_text outcome.body RESPONSE_JSON_CHOICE with
      | none => .raised "function returned NULL".toList
      | some choices =>
        match H.json_array_element_text choices 0 with
        | none => .raised "function returned NULL".toList
        | some first_choice =>
          match H.json_object_field_text first_choice RESPONSE_JSON_KEY with
          | none => .raised "function returned NULL".toList
          | some return_text => .ok (finish return_text)
    else if rest_response.data_size = 0 then .ok (finish TRY_AGAIN)
    else .ok (finish outcome.body)
  | _, _ => .undefined

/-! ## pg_ai_image.c -/

/-- The callbacks that `initialize_service` (not under `src/`) installs in the
`AIService`, reached through the macros `SET_AND_VALIDATE_OPTIONS`,
`SET_SERVICE_DATA`, `PREPARE_FOR_TRANSFER`, `REST_TRANSFER` and the pointer
`prepare_for_transfer`, together with `initialize_service` itself. Each gives
its return code and the service as it leaves it. -/
structure Service where
  initialize_service : AIService → Exec (Int × AIService)
  set_and_validate_options : AIService → FunctionCallInfo → Exec (Int × AIService)
  set_service_data : AIService → CString → Exec (Int × AIService)
  prepare_for_transfer : AIService → Exec (Int × AIService)
  rest_transfer : AIService → Exec AIService

/-- A pointer-sized `Datum` as the aggregate functions exchange it: NULL, a
pointer to an `AIService` (with the value it points at), or a pointer to a
`text` value. -/
inductive Datum where
  | null
  | service (ai_service : AIService)
  | text (t : CString)
  deriving DecidableEq, Repr

/-- What outlives one call: the slot `fcinfo->flinfo->fn_extra` of the
transition function (`none`: NULL) and the number of `REST_TRANSFER`
invocations executed so far. -/
structure World where
  fn_extra : Option AIService
  transfers : Nat
  deriving DecidableEq, Repr

/-- Answer of `rest_response->data` read as a C string: `rest_response` is
dereferenced (`none` when it is NULL) and its `data` is aimed at
`service_data->response`. -/
def rest_response_data (ai_service : AIService) : Option CString :=
  match ai_service.rest_response, ai_service.service_data with
  | some _, some service_data => some service_data.response
  | _, _ => none

/-- The macro `REST_TRANSFER` followed by the read of `rest_response->data`:
one more transfer is counted, whatever the callback does. -/
def transfer_and_read (S : Service) (ai_service : AIService) (w : World) :
    Exec CString × World :=
  let w := { w with transfers := w.transfers + 1 }
  match S.rest_transfer ai_service with
  | .raised msg => (.raised msg, w)
  | .undefined => (.undefined, w)
  | .ok ai_service =>
    match rest_response_data ai_service with
    | none => (.undefined, w)
    | some data => (.ok data, w)

/-- The function `pg_ai_generate_image` (the memory contexts left out). -/
def pg_ai_generate_image (K : Consts) (S : Service) (fcinfo : FunctionCallInfo)
    (w : World) : Exec CString × World :=
  match fcinfo.args 0 with
  | none =>
    (.raised ("Incorrect parameters: please specify the column ".toList
                ++ List.replicate 6 '\t' ++ " name\n".toList), w)
  | some arg0 =>
    let ai_service :=
      { palloc0_AIService with
        function_flags := palloc0_AIService.function_flags ||| K.FUNCTION_GENERATE_IMAGE }
    match S.initialize_service ai_service with
    | .raised msg => (.raised msg, w)
    | .undefined => (.undefined, w)
    | .ok (return_value, ai_service) =>
      if return_value ≠ 0 then (.ok (K.GET_ERR_TEXT .UNSUPPORTED_SERVICE), w) else
      match S.set_and_validate_options ai_service fcinfo with
      | .raised msg => (.raised msg, w)
      | .undefined => (.undefined, w)
      | .ok (return_value, ai_service) =>
        if return_value ≠ 0 then (.ok (K.GET_ERR_TEXT .INVALID_OPTIONS), w) else
        match S.set_service_data ai_service arg0 with
        | .raised msg => (.raised msg, w)
        | .undefined => (.undefined, w)
        | .ok (return_value, ai_service) =>
          if return_value ≠ 0 then (.ok (K.GET_ERR_TEXT .INT_DATA_ERR), w) else
          match S.prepare_for_transfer ai_service with
          | .raised msg => (.raised msg, w)
          | .undefined => (.undefined, w)
          | .ok (return_value, ai_service) =>
            if return_value ≠ 0 then (.ok (K.GET_ERR_TEXT .INT_PREP_TNSFR), w) else
            transfer_and_read S ai_service w

/-- Lines 108-118 of `pg_ai_generate_image_agg_transfn`, "accumulate non NULL
values": `ai_service` is the object `fn_extra` points at, changed in place. -/
def accumulate (K : Consts) (S : Service) (fcinfo : FunctionCallInfo)
    (ai_service : AIService) (w : World) : Exec Datum × World :=
  match fcinfo.args 1 with
  | none => (.ok (.service ai_service), { w with fn_extra := some ai_service })
  | some arg1 =>
    match S.set_service_data ai_service arg1 with
    | .raised msg => (.raised msg, { w with fn_extra := some ai_service })
    | .undefined => (.undefined, { w with fn_extra := some ai_service })
    | .ok (return_value, ai_service) =>
      if return_value ≠ 0 then
        (.ok (.text (K.GET_ERR_TEXT .INT_DATA_ERR)), { w with fn_extra := some ai_service })
      else (.ok (.service ai_service), { w with fn_extra := some ai_service })

/-- The function `pg_ai_generate_image_agg_transfn`: the `Datum` it returns,
which PostgreSQL keeps as the transition state of the group. -/
def pg_ai_generate_image_agg_transfn (K : Consts) (S : Service) (fcinfo : FunctionCallInfo)
    (w : World) : Exec Datum × World :=
  if fcinfo.agg_context = false then
    (.raised "Function called in non-aggregate context".toList, w)
  else
    match w.fn_extra with
    | some ai_service => accumulate K S fcinfo ai_service w
    | none =>
      let ai_service :=
        { palloc0_AIService with
          function_flags :=
            palloc0_AIService.function_flags ||| K.FUNCTION_GENERATE_IMAGE_AGGREGATE }
      match S.initialize_service ai_service with
      | .raised msg => (.raised msg, w)
      | .undefined => (.undefined, w)
      | .ok (return_value, ai_service) =>
        if return_value ≠ 0 then (.ok (.text (K.GET_ERR_TEXT .UNSUPPORTED_SERVICE)), w) else
        match ai_service.service_data with
        | none => (.undefined, w)
        | some service_data =>
          let ai_service :=
            { ai_service with service_data := some { service_data with request := [] } }
          match S.set_and_validate_options ai_service fcinfo with
          | .raised msg => (.raised msg, w)
          | .undefined => (.undefined, w)
          | .ok (return_value, ai_service) =>
            if return_value ≠ 0 then (.ok (.text (K.GET_ERR_TEXT .INVALID_OPTIONS)), w) else
            accumulate K S fcinfo ai_service w

/-- The text returned by `pg_ai_generate_image_agg_finalfn` for a NULL state. -/
def INTERNAL_ERROR : CString := "Internal Error".toList

/-- The text returned by `pg_ai_generate_image_agg_finalfn` when
`prepare_for_transfer` fails (the literal runs over a line break). -/
def CANNOT_SET_TRANSFER_DATA : CString :=
  "Internal error: cannot set ".toList ++ List.replicate 10 '\t' ++ " transfer data".toList

/-- The function `pg_ai_generate_image_agg_finalfn` on the transition state
`PG_GETARG_POINTER(0)`. Only NULL is tested: a pointer to a `text` value is
used as an `AIService *`, and the call through its `prepare_for_transfer`
member is undefined behaviour. -/
def pg_ai_generate_image_agg_finalfn (S : Service) (state : Datum) (w : World) :
    Exec CString × World :=
  match state with
  | .null => (.ok INTERNAL_ERROR, w)
  | .text _ => (.undefined, w)
  | .service ai_service =>
    match S.prepare_for_transfer ai_service with
    | .raised msg => (.raised msg, w)
    | .undefined => (.undefined, w)
    | .ok (return_value, ai_service) =>
      if return_value ≠ 0 then (.ok CANNOT_SET_TRANSFER_DATA, w) else
      transfer_and_read S ai_service w

/-- The transition calls of one group, in row order: PostgreSQL starts from a
NULL state, hands each row to the transition function and keeps what it
returns; an error or undefined behaviour ends the run. -/
def run_transfns (K : Consts) (S : Service) :
    List FunctionCallInfo → Datum → World → Exec Datum × World
  | [], state, w => (.ok state, w)
  | fcinfo :: rows, _, w =>
    match pg_ai_generate_image_agg_transfn K S fcinfo w with
    | (.ok state, w) => run_transfns K S rows state w
    | (.raised msg, w) => (.raised msg, w)
    | (.undefined, w) => (.undefined, w)

/-- The rest of a group from a transition state on: the transition calls for
the rows still to come, then the final call on the state they leave. -/
def finish_group (K : Consts) (S : Service) (rows : List FunctionCallInfo) (state : Datum)
    (w : World) : Exec CString × World :=
  match run_transfns K S rows state w with
  | (.ok state, w) => pg_ai_generate_image_agg_finalfn S state w
  | (.raised msg, w) => (.raised msg, w)
  | (.undefined, w) => (.undefined, w)

/-- One aggregate group: the transition calls from a NULL state, then one
final call. -/
def run_group (K : Consts) (S : Service) (rows : List FunctionCallInfo) (w : World) :
    Exec CString × World :=
  finish_group K S rows .null w

/-- Spec-side reading of "the leading run of newline characters": how many
newlines stand before the first other char. -/
def leading_newlines (t : CString) : Nat :=
  (t.takeWhile (fun c => c == '\n')).length

/-- The response text a call of a `rest_transfer` callback leaves, when it
returns. -/
def response_left (r : Exec AIService) : Option CString :=
  match r with
  | .ok ai_service => rest_response_data ai_service
  | .raised _ => none
  | .undefined => none

/-! ## Sample values

Concrete constants, collaborators and callbacks on which the definitions are
evaluated. The real values of the macros are in headers outside `src/`; the
theorems that are stated for every `Consts`, `Host` and `Service` do not
depend on these. -/


/-- Sample error texts for `GET_ERR_TEXT`. -/
def sample_err_text : ErrCode → CString
  | .UNSUPPORTED_SERVICE => "Unsupported service.".toList
  | .INVALID_OPTIONS => "Invalid options.".toList
  | .INT_DATA_ERR => "Internal error: cannot set data.".toList
  | .INT_PREP_TNSFR => "Internal error: cannot prepare transfer.".toList

/-- Sample constants: one bit per function flag, the aggregate bit shared by
`CHAT_GPT_FUNCTION_GET_INSIGHT_AGGREGATE` and `FUNCTION_GENERATE_IMAGE_AGGREGATE`,
a request array of 64 chars and a request limit of 16. -/
def sample_consts : Consts :=
  { RETURN_ERROR := 1
    RETURN_ERROR_ne_zero := by decide
    CHAT_GPT_FUNCTION_GET_INSIGHT := 1
    CHAT_GPT_FUNCTION_GET_INSIGHT_AGGREGATE := 2
    FUNCTION_GENERATE_IMAGE := 4
    FUNCTION_GENERATE_IMAGE_AGGREGATE := 2
    OPTION_PROVIDER_KEY := "key".toList
    OPTION_PROVIDER_KEY_DESC := "API key".toList
    OPTION_INSIGHT_COLUMN := "column".toList
    OPTION_INSIGHT_COLUMN_DESC := "column name".toList
    OPTION_SERVICE_PROMPT := "prompt".toList
    OPTION_SERVICE_PROMPT_DESC := "prompt text".toList
    OPTION_SERVICE_PROMPT_AGG := "prompt_agg".toList
    CHAT_GPT_SUMMARY_PROMPT := "Summarize".toList
    CHAT_GPT_AGG_PROMPT := "Summarize all".toList
    SERVICE_PROVIDER_OPEN_AI := "OpenAI".toList
    SERVICE_CHAT_GPT := "chatgpt".toList
    CHAT_GPT_DESCRIPTION := "completion".toList
    CHAT_GPT_API_URL := "https://api.openai.com/v1/completions".toList
    SERVICE_MAX_REQUEST_SIZE := 16
    SERVICE_MAX_RESPONSE_SIZE := 64
    SERVICE_DATA_SIZE := 64
    GET_ERR_TEXT := sample_err_text }

/-- The body of the spec's synthetic transport stub. -/
def PARIS_BODY : CString := "\x7b\"choices\":[\x7b\"text\":\"Paris\"\x7d]\x7d".toList

/-- The `choices` array of `PARIS_BODY`. -/
def PARIS_CHOICES : CString := "[\x7b\"text\":\"Paris\"\x7d]".toList

/-- The first element of `PARIS_CHOICES`. -/
def PARIS_FIRST : CString := "\x7b\"text\":\"Paris\"\x7d".toList

/-- A stand-in for `json_object_field_text` that knows the documents of the
Paris stub and gives no value for anything else. -/
def stub_json_object_field_text (doc key : CString) : Option CString :=
  if doc = PARIS_BODY ∧ key = "choices".toList then some PARIS_CHOICES
  else if doc = PARIS_FIRST ∧ key = "text".toList then some "Paris".toList
  else none

/-- A stand-in for `json_array_element_text` that knows the array of the Paris
stub and gives no value for anything else. -/
def stub_json_array_element_text (doc : CString) (n : Nat) : Option CString :=
  if doc = PARIS_CHOICES ∧ n = 0 then some PARIS_FIRST else none

/-- Set-up of the transfer structures: two fresh zeroed structures, filled
through `chat_gpt_set_service_buffers`. -/
def stub_init_rest_transfer (ai_service : AIService) : RestRequest × RestResponse :=
  match ai_service.service_data with
  | none => ({ max_size := 0 }, { max_size := 0, data_size := 0, response_code := 0 })
  | some service_data =>
    chat_gpt_set_service_buffers { max_size := 0 }
      { max_size := 0, data_size := 0, response_code := 0 } service_data

/-- A host whose transport always answers with the given outcome. -/
def stub_host (outcome : Outcome) : Host :=
  { rest_transfer := fun _ => outcome
    json_object_field_text := stub_json_object_field_text
    json_array_element_text := stub_json_array_element_text
    init_rest_transfer := stub_init_rest_transfer }

/-- The host of the spec's round trip: status 200 and `PARIS_BODY`. -/
def paris_host : Host := stub_host { response_code := 200, bytes := PARIS_BODY }

/-- The chat-gpt callbacks of `service_chat_gpt.c` bound as a `Service`;
`prepare_for_transfer` is not under `src/` and is passed in. -/
def chat_gpt_service (K : Consts) (H : Host)
    (prepare_for_transfer : AIService → Exec (Int × AIService)) : Service :=
  { initialize_service := fun ai_service =>
      .ok (RETURN_ZERO, chat_gpt_init_service_options K ai_service)
    set_and_validate_options := fun ai_service fcinfo =>
      match chat_gpt_set_and_validate_options K ai_service fcinfo with
      | .ok (r, ai_service) => .ok (r.1, ai_service)
      | .raised msg => .raised msg
      | .undefined => .undefined
    set_service_data := chat_gpt_init_service_data K H
    prepare_for_transfer := prepare_for_transfer
    rest_transfer := chat_gpt_rest_transfer H }

/-- A `prepare_for_transfer` that succeeds and changes nothing. -/
def prepare_ok (ai_service : AIService) : Exec (Int × AIService) :=
  .ok (RETURN_ZERO, ai_service)

/-- The sample service: chat-gpt callbacks over the Paris host. -/
def sample_service : Service := chat_gpt_service sample_consts paris_host prepare_ok

/-- A row of the aggregate: state, input (`none`: NULL), then key, column and
prompt. -/
def sample_row (input : Option CString) : FunctionCallInfo :=
  { agg_context := true
    args := fun n =>
      if n = 1 then input
      else if n = 2 then some "sk-1".toList
      else if n = 3 then some "c".toList
      else if n = 4 then some "P".toList
      else none }

/-- A row as `sample_row`, with no key argument. -/
def sample_row_no_key (input : Option CString) : FunctionCallInfo :=
  { agg_context := true
    args := fun n =>
      if n = 1 then input
      else if n = 3 then some "c".toList
      else if n = 4 then some "P".toList
      else none }

/-- The world before the first call of a query. -/
def world0 : World := { fn_extra := none, transfers := 0 }

/-- A service whose option list holds the resolved credential `key`. -/
def service_with_key (K : Consts) (key : CString) : AIService :=
  { palloc0_AIService with
    service_data := some
      { palloc0_ServiceData with
        options := [{ name := K.OPTION_PROVIDER_KEY, description := K.OPTION_PROVIDER_KEY_DESC,
                      value := key, provider := true, required := true, is_set := true }] } }

/-- A session as `initialize_service` leaves it with the chat-gpt options. -/
def sample_session : AIService := chat_gpt_init_service_options sample_consts palloc0_AIService

/-- The sample session once `init_rest_transfer` has allocated its transfer
structures. -/
def sample_transfer_session : AIService :=
  { sample_session with
    rest_request := some (stub_init_rest_transfer sample_session).1
    rest_response := some (stub_init_rest_transfer sample_session).2 }

/-- A session whose prompt option is resolved to `P`, with `old` in the request
buffer. -/
def session_with_prompt (old : CString) : AIService :=
  { palloc0_AIService with
    service_data := some
      { palloc0_ServiceData with
        request := old
        options := [{ name := sample_consts.OPTION_SERVICE_PROMPT,
                      description := sample_consts.OPTION_SERVICE_PROMPT_DESC,
                      value := "P".toList, provider := false, required := true,
                      is_set := true }] } }

/-- The session in `fn_extra` after the given rows of a sample group. -/
def sample_session_after (rows : List FunctionCallInfo) : AIService :=
  match (run_transfns sample_consts sample_service rows .null world0).2.fn_extra with
  | some ai_service => ai_service
  | none => palloc0_AIService

/-- The session of an aggregate call after `initialize_service` of the sample
service. -/
def sample_initialized : AIService :=
  chat_gpt_init_service_options sample_consts
    { palloc0_AIService with
      function_flags :=
        palloc0_AIService.function_flags ||| sample_consts.FUNCTION_GENERATE_IMAGE_AGGREGATE }

/-- The session after the sample service has stored the options of a call. -/
def sample_options_stored (fcinfo : FunctionCallInfo) : AIService :=
  match chat_gpt_set_and_validate_options sample_consts sample_initialized fcinfo with
  | .ok (_, ai_service) => ai_service
  | .raised _ => sample_initialized
  | .undefined => sample_initialized

/-- Three declared options of which only the column, the second, is required
and unset. -/
def options_without_column : List ServiceOption :=
  [{ name := "key".toList, description := [], value := "sk-1".toList, provider := true,
     required := true, is_set := true },
   { name := "column".toList, description := [], value := [], provider := true,
     required := true, is_set := false },
   { name := "prompt".toList, description := [], value := "P".toList, provider := false,
     required := true, is_set := true }]

/-! ## Theorems -/


theorem validate_walk_of_all_ok (K : Consts) (opts : List ServiceOption)
    (h : ∀ o ∈ opts, missing o = false) : validate_walk K opts = (RETURN_ZERO, none) := by
  induction opts with
  | nil => rfl
  | cons o rest ih =>
    have ho := h o (List.mem_cons_self _ _)
    have hr := ih (fun p hp => h p (List.mem_cons_of_mem _ hp))
    unfold missing at ho
    cases hs : o.is_set <;> cases hq : o.required <;> simp_all [validate_walk]

theorem validate_walk_first_missing (K : Consts) (pre : List ServiceOption) (o : ServiceOption)
    (post : List ServiceOption) (hpre : ∀ p ∈ pre, missing p = false) (ho : missing o = true) :
    validate_walk K (pre ++ o :: post) = (K.RETURN_ERROR, some o.name) := by
  induction pre with
  | nil =>
    unfold missing at ho
    cases hs : o.is_set <;> cases hq : o.required <;> simp_all [validate_walk]
  | cons p rest ih =>
    have hp := hpre p (List.mem_cons_self _ _)
    have hr := ih (fun q hq => hpre q (List.mem_cons_of_mem _ hq))
    unfold missing at hp
    cases hs : p.is_set <;> cases hq : p.required <;> simp_all [validate_walk]

theorem exists_first_missing (opts : List ServiceOption)
    (h : ¬ ∀ o ∈ opts, missing o = false) :
    ∃ pre o post, opts = pre ++ o :: post ∧ (∀ p ∈ pre, missing p = false) ∧
      missing o = true := by
  induction opts with
  | nil => simp at h
  | cons a rest ih =>
    by_cases ha : missing a = true
    · exact ⟨[], a, rest, rfl, by simp, ha⟩
    · have ha' : missing a = false := by simpa using ha
      have hrest : ¬ ∀ o ∈ rest, missing o = false := by
        intro hall
        apply h
        intro o ho
        rcases List.mem_cons.mp ho with rfl | ho
        · exact ha'
        · exact hall o ho
      obtain ⟨pre, o, post, heq, hpre, ho⟩ := ih hrest
      refine ⟨a :: pre, o, post, by simp [heq], ?_, ho⟩
      intro p hp
      rcases List.mem_cons.mp hp with rfl | hp
      · exact ha'
      · exact hpre p hp

/-- C2: the validation walk at the end of `chat_gpt_set_and_validate_options`
returns `RETURN_ZERO` exactly when no option is required and unset; when it
fails it reports the first required-and-unset option in declaration order; when
exactly one option is required and unset, that option is the one reported; and
the return code of `chat_gpt_set_and_validate_options` is the walk's, over the
options the function has stored. -/
theorem C2_validate_walk_first_violation (K : Consts) (opts : List ServiceOption) :
    ((validate_walk K opts).1 = RETURN_ZERO ↔ ∀ o ∈ opts, missing o = false) ∧
    ((validate_walk K opts).1 ≠ RETURN_ZERO →
      ∃ pre o post, opts = pre ++ o :: post ∧ (∀ p ∈ pre, missing p = false) ∧
        missing o = true ∧ validate_walk K opts = (K.RETURN_ERROR, some o.name)) ∧
    (∀ pre o post, opts = pre ++ o :: post → missing o = true →
      (∀ p ∈ pre ++ post, missing p = false) →
      validate_walk K opts = (K.RETURN_ERROR, some o.name)) ∧
    (∀ ai_service fcinfo r ai_service',
      chat_gpt_set_and_validate_options K ai_service fcinfo = .ok (r, ai_service') →
      ∃ service_data, ai_service'.service_data = some service_data ∧
        r = validate_walk K service_data.options) := by
  have hiff : (validate_walk K opts).1 = RETURN_ZERO ↔ ∀ o ∈ opts, missing o = false := by
    constructor
    · intro hz
      by_contra hne
      obtain ⟨pre, o, post, heq, hpre, ho⟩ := exists_first_missing opts hne
      rw [heq, validate_walk_first_missing K pre o post hpre ho] at hz
      exact K.RETURN_ERROR_ne_zero hz
    · intro hall
      rw [validate_walk_of_all_ok K opts hall]
  refine ⟨hiff, ?_, ?_, ?_⟩
  · intro hne
    have hnall : ¬ ∀ o ∈ opts, missing o = false := fun hall => hne (hiff.mpr hall)
    obtain ⟨pre, o, post, heq, hpre, ho⟩ := exists_first_missing opts hnall
    exact ⟨pre, o, post, heq, hpre, ho, by rw [heq]; exact validate_walk_first_missing K pre o post hpre ho⟩
  · intro pre o post heq ho hall
    rw [heq]
    exact validate_walk_first_missing K pre o post
      (fun p hp => hall p (List.mem_append_left _ hp)) ho
  · intro ai_service fcinfo r ai_service' h
    unfold chat_gpt_set_and_validate_options at h
    cases hsd : ai_service.service_data with
    | none => simp [hsd] at h
    | some sd =>
      simp only [hsd] at h
      injection h with h
      injection h with h1 h2
      subst h2
      exact ⟨_, rfl, h1.symm⟩


/-- C2, at a concrete list: key and prompt are set, the required column is not,
and the walk fails naming the column. -/
theorem C2_witness_missing_column :
    validate_walk sample_consts options_without_column
      = (sample_consts.RETURN_ERROR, some "column".toList) :=
  (C2_validate_walk_first_violation sample_consts options_without_column).2.2.1
    [{ name := "key".toList, description := [], value := "sk-1".toList, provider := true,
       required := true, is_set := true }]
    { name := "column".toList, description := [], value := [], provider := true,
      required := true, is_set := false }
    [{ name := "prompt".toList, description := [], value := "P".toList, provider := false,
       required := true, is_set := true }]
    rfl rfl (by decide)

/-! ### The response loop -/

theorem leading_newlines_cons_newline (rest : CString) :
    leading_newlines ('\n' :: rest) = leading_newlines rest + 1 := by
  simp [leading_newlines, List.takeWhile_cons]

theorem leading_newlines_cons_other (c : Char) (rest : CString) (hc : c ≠ '\n') :
    leading_newlines (c :: rest) = 0 := by
  simp [leading_newlines, List.takeWhile_cons, hc]

theorem blank_leading_newlines_eq (t : CString) :
    blank_leading_newlines t
      = List.replicate (leading_newlines t) ' ' ++ t.drop (leading_newlines t) := by
  induction t with
  | nil => rfl
  | cons c rest ih =>
    by_cases hc : c = '\n'
    · subst hc
      rw [leading_newlines_cons_newline]
      simp [blank_leading_newlines, List.replicate_succ, ih]
    · rw [leading_newlines_cons_other c rest hc]
      simp [blank_leading_newlines, hc]

theorem blank_leading_newlines_length (t : CString) :
    (blank_leading_newlines t).length = t.length := by
  induction t with
  | nil => rfl
  | cons c rest ih =>
    by_cases hc : c = '\n' <;> simp [blank_leading_newlines, hc, ih]

theorem blank_leading_newlines_ne_nil (t : CString) (h : t ≠ []) :
    blank_leading_newlines t ≠ [] := by
  intro hnil
  have := blank_leading_newlines_length t
  rw [hnil] at this
  exact h (List.length_eq_zero.mp this.symm)


/-! ### chat_gpt_rest_transfer -/

/-- What `chat_gpt_rest_transfer` computes on a session that has its
`ServiceData` and its `RestResponse`. -/
theorem chat_gpt_rest_transfer_eq (H : Host) (ai_service : AIService)
    (service_data : ServiceData) (rest_response : RestResponse)
    (hsd : ai_service.service_data = some service_data)
    (hrr : ai_service.rest_response = some rest_response) :
    chat_gpt_rest_transfer H ai_service
      = (let outcome := H.rest_transfer ai_service
         let finish (response : CString) : AIService :=
           { ai_service with
             rest_response := some
               { rest_response with
                 data_size := outcome.bytes.length
                 response_code := outcome.response_code }
             service_data := some
               { service_data with response := blank_leading_newlines response } }
         if outcome.response_code = HTTP_OK then
           match H.json_object_field_text outcome.body RESPONSE_JSON_CHOICE with
           | none => .raised "function returned NULL".toList
           | some choices =>
             match H.json_array_element_text choices 0 with
             | none => .raised "function returned NULL".toList
             | some first_choice =>
               match H.json_object_field_text first_choice RESPONSE_JSON_KEY with
               | none => .raised "function returned NULL".toList
               | some return_text => .ok (finish return_text)
         else if outcome.bytes.length = 0 then .ok (finish TRY_AGAIN)
         else .ok (finish outcome.body)) := by
  simp only [chat_gpt_rest_transfer, hsd, hrr]

/-- C8: for a transfer outcome with status 200 whose body has the text `t` at
the `text` field of the first element of the `choices` array,
`chat_gpt_rest_transfer` returns and leaves as response `t` with each char of
its leading run of newlines replaced by a space and every other char
unchanged: same length, a space at each position inside the run, the char of
`t` at each position after it. -/
theorem C8_response_is_text_with_leading_newlines_blanked (H : Host) (ai_service : AIService)
    (service_data : ServiceData) (rest_response : RestResponse)
    (choices first_choice t : CString)
    (hsd : ai_service.service_data = some service_data)
    (hrr : ai_service.rest_response = some rest_response)
    (hcode : (H.rest_transfer ai_service).response_code = 200)
    (hchoices : H.json_object_field_text (H.rest_transfer ai_service).body "choices".toList
      = some choices)
    (hfirst : H.json_array_element_text choices 0 = some first_choice)
    (htext : H.json_object_field_text first_choice "text".toList = some t) :
    ∃ ai_service' response,
      chat_gpt_rest_transfer H ai_service = .ok ai_service' ∧
      rest_response_data ai_service' = some response ∧
      response = List.replicate (leading_newlines t) ' ' ++ t.drop (leading_newlines t) ∧
      response.length = t.length ∧
      (∀ i, i < leading_newlines t → response[i]? = some ' ' ∧ t[i]? = some '\n') ∧
      (∀ i, leading_newlines t ≤ i → response[i]? = t[i]?) ∧
      (leading_newlines t = 0 → response = t) := by
  have hrun : chat_gpt_rest_transfer H ai_service
      = .ok { ai_service with
              rest_response := some
                { rest_response with
                  data_size := (H.rest_transfer ai_service).bytes.length
                  response_code := (H.rest_transfer ai_service).response_code }
              service_data := some { service_data with response := blank_leading_newlines t } } := by
    have hchoices' : H.json_object_field_text (H.rest_transfer ai_service).body
        RESPONSE_JSON_CHOICE = some choices := hchoices
    have htext' : H.json_object_field_text first_choice RESPONSE_JSON_KEY = some t := htext
    rw [chat_gpt_rest_transfer_eq H ai_service service_data rest_response hsd hrr]
    simp only [hcode, HTTP_OK, if_true, hchoices', hfirst, htext']
  refine ⟨_, blank_leading_newlines t, hrun, rfl, blank_leading_newlines_eq t,
    blank_leading_newlines_length t, ?_, ?_, ?_⟩
  · intro i hi
    constructor
    · rw [blank_leading_newlines_eq, List.getElem?_append_left (by simpa using hi)]
      simp [List.getElem?_replicate, hi]
    · have hlt : i < (t.takeWhile (fun c => c == '\n')).length := hi
      have hmem := List.getElem_mem hlt
      have hp := List.mem_takeWhile_imp hmem
      have hget : t[i]? = (t.takeWhile (fun c => c == '\n'))[i]? := by
        conv_lhs => rw [← List.takeWhile_append_dropWhile (fun c => c == '\n') t]
        rw [List.getElem?_append_left hlt]
      rw [hget, List.getElem?_eq_getElem hlt]
      simp only [beq_iff_eq] at hp
      rw [hp]
  · intro i hi
    rw [blank_leading_newlines_eq, List.getElem?_append_right (by simpa using hi)]
    simp only [List.length_replicate, List.getElem?_drop]
    congr 1
    omega
  · intro h0
    rw [blank_leading_newlines_eq, h0]
    simp

/-- C8, at the spec's round trip: status 200 and the body
`{"choices":[{"text":"Paris"}]}` leave the response `Paris`. -/
theorem C8_witness_paris :
    ∃ ai_service',
      chat_gpt_rest_transfer paris_host sample_transfer_session = .ok ai_service' ∧
      rest_response_data ai_service' = some "Paris".toList := by
  obtain ⟨s', r, hrun, hdata, _, _, _, _, hplain⟩ :=
    C8_response_is_text_with_leading_newlines_blanked paris_host sample_transfer_session
      (define_options sample_consts
        { palloc0_ServiceData with
          provider := sample_consts.SERVICE_PROVIDER_OPEN_AI
          name := sample_consts.SERVICE_CHAT_GPT
          description := sample_consts.CHAT_GPT_DESCRIPTION })
      (stub_init_rest_transfer sample_session).2
      PARIS_CHOICES PARIS_FIRST "Paris".toList rfl rfl rfl (by decide) (by decide) (by decide)
  exact ⟨s', hrun, by rw [hdata, hplain (by decide)]⟩

/-- The C string in a buffer is empty exactly when no byte was written or the
first byte is NUL. -/
theorem body_eq_nil_iff (outcome : Outcome) :
    outcome.body = [] ↔ outcome.bytes = [] ∨ outcome.bytes.head? = some NUL := by
  unfold Outcome.body
  cases h : outcome.bytes with
  | nil => simp
  | cons c rest =>
    by_cases hc : c = NUL
    · simp [List.takeWhile_cons, hc]
    · simp [List.takeWhile_cons, hc]

/-- C7, as the code has it: for every transfer outcome whose status is not
`HTTP_OK`, `chat_gpt_rest_transfer` returns; when no byte was received the
response is the fixed text "Something is not ok, try again."; when bytes were
received the response is the received body, read as a C string, with its
leading newlines replaced by spaces. The response is the empty string exactly
when bytes were received and the first of them is NUL. -/
theorem C7_fallback_only_for_empty_body (H : Host) (ai_service : AIService)
    (service_data : ServiceData) (rest_response : RestResponse)
    (hsd : ai_service.service_data = some service_data)
    (hrr : ai_service.rest_response = some rest_response)
    (hcode : (H.rest_transfer ai_service).response_code ≠ HTTP_OK) :
    ∃ ai_service' response,
      chat_gpt_rest_transfer H ai_service = .ok ai_service' ∧
      rest_response_data ai_service' = some response ∧
      ((H.rest_transfer ai_service).bytes = [] →
        response = "Something is not ok, try again.".toList) ∧
      ((H.rest_transfer ai_service).bytes ≠ [] →
        response = blank_leading_newlines (H.rest_transfer ai_service).body) ∧
      (response = [] ↔ (H.rest_transfer ai_service).bytes.head? = some NUL) := by
  have hne : ¬ (H.rest_transfer ai_service).response_code = HTTP_OK := hcode
  by_cases hbytes : (H.rest_transfer ai_service).bytes = []
  · have hrun : chat_gpt_rest_transfer H ai_service
        = .ok { ai_service with
                rest_response := some
                  { rest_response with
                    data_size := (H.rest_transfer ai_service).bytes.length
                    response_code := (H.rest_transfer ai_service).response_code }
                service_data := some { service_data with
                                       response := blank_leading_newlines TRY_AGAIN } } := by
      rw [chat_gpt_rest_transfer_eq H ai_service service_data rest_response hsd hrr]
      simp only [hne, if_false, hbytes, List.length_nil, if_true]
    refine ⟨_, blank_leading_newlines TRY_AGAIN, hrun, rfl, fun _ => by decide,
      fun h => absurd hbytes h, ?_⟩
    constructor
    · intro h
      exact absurd h (by decide)
    · intro h
      rw [hbytes] at h
      simp at h
  · have hlen : ¬ (H.rest_transfer ai_service).bytes.length = 0 := by
      intro h0
      exact hbytes (List.length_eq_zero.mp h0)
    have hrun : chat_gpt_rest_transfer H ai_service
        = .ok { ai_service with
                rest_response := some
                  { rest_response with
                    data_size := (H.rest_transfer ai_service).bytes.length
                    response_code := (H.rest_transfer ai_service).response_code }
                service_data := some { service_data with
                    response := blank_leading_newlines (H.rest_transfer ai_service).body } } := by
      rw [chat_gpt_rest_transfer_eq H ai_service service_data rest_response hsd hrr]
      simp only [hne, if_false, hlen]
    refine ⟨_, blank_leading_newlines (H.rest_transfer ai_service).body, hrun, rfl,
      fun h => absurd h hbytes, fun _ => rfl, ?_⟩
    have hnil : blank_leading_newlines (H.rest_transfer ai_service).body = []
        ↔ (H.rest_transfer ai_service).body = [] := by
      constructor
      · intro h
        by_contra hb
        exact blank_leading_newlines_ne_nil _ hb h
      · intro h
        rw [h]
        rfl
    rw [hnil, body_eq_nil_iff]
    constructor
    · intro h
      rcases h with h | h
      · exact absurd h hbytes
      · exact h
    · intro h
      exact Or.inr h

/-- C7, at a concrete outcome: status 404 with no byte received leaves the
fixed text. -/
theorem C7_witness_not_found_empty_body :
    ∃ ai_service',
      chat_gpt_rest_transfer (stub_host { response_code := 404, bytes := [] })
        sample_transfer_session = .ok ai_service' ∧
      rest_response_data ai_service' = some "Something is not ok, try again.".toList := by
  obtain ⟨s', r, hrun, hdata, hempty, _, _⟩ :=
    C7_fallback_only_for_empty_body (stub_host { response_code := 404, bytes := [] })
      sample_transfer_session
      (define_options sample_consts
        { palloc0_ServiceData with
          provider := sample_consts.SERVICE_PROVIDER_OPEN_AI
          name := sample_consts.SERVICE_CHAT_GPT
          description := sample_consts.CHAT_GPT_DESCRIPTION })
      (stub_init_rest_transfer sample_session).2
      rfl rfl (by decide)
  exact ⟨s', hrun, by rw [hdata, hempty rfl]⟩

/-- C7 as stated fails: with status 500 and the body `oops` the response left
is `oops`, not the fixed text; with status 500 and the two bytes NUL and `x`
the response left is the empty string; and with status 200 and no byte, for
which the JSON accessor gives no value, the call raises instead of leaving the
fixed text. -/
theorem C7_counterexample_error_status_with_body :
    response_left (chat_gpt_rest_transfer
        (stub_host { response_code := 500, bytes := "oops".toList }) sample_transfer_session)
      = some "oops".toList ∧
    response_left (chat_gpt_rest_transfer
        (stub_host { response_code := 500, bytes := "oops".toList }) sample_transfer_session)
      ≠ some "Something is not ok, try again.".toList ∧
    response_left (chat_gpt_rest_transfer
        (stub_host { response_code := 500, bytes := [NUL, 'x'] }) sample_transfer_session)
      = some [] ∧
    chat_gpt_rest_transfer (stub_host { response_code := 200, bytes := [] })
        sample_transfer_session
      = .raised "function returned NULL".toList := by
  refine ⟨by decide, by decide, by decide, by decide⟩

/-! ### chat_gpt_add_service_headers -/

theorem key_header_eq (key : CString) :
    snprintf_s 128 "Authorization: Bearer ".toList key
      = "Authorization: Bearer ".toList ++ key.take 105 := by
  have hlen : ("Authorization: Bearer ".toList).length = 22 := by decide
  unfold snprintf_s
  rw [List.take_append_eq_append_take, hlen,
    List.take_of_length_le (by rw [hlen]; decide)]

/-- C10, as the code has it: for every header list `hs` and resolved
credential key `k`, `chat_gpt_add_service_headers` returns `RETURN_ZERO` and
`hs` followed by "Content-Type: application/json" and by "Authorization: Bearer "
joined with the first 105 chars of `k` (the header is built by `snprintf` in a
128-char array); that is the whole of `k` when `k` has at most 105 chars. -/
theorem C10_headers_with_bounded_key (K : Consts) (hs : List CString) (ai_service : AIService)
    (service_data : ServiceData) (k : CString)
    (hsd : ai_service.service_data = some service_data)
    (hkey : get_option_value service_data.options K.OPTION_PROVIDER_KEY = some k) :
    chat_gpt_add_service_headers K hs ai_service
      = .ok (RETURN_ZERO,
          hs ++ ["Content-Type: application/json".toList,
                 "Authorization: Bearer ".toList ++ k.take 105]) ∧
    (k.length ≤ 105 →
      chat_gpt_add_service_headers K hs ai_service
        = .ok (RETURN_ZERO,
            hs ++ ["Content-Type: application/json".toList,
                   "Authorization: Bearer ".toList ++ k])) := by
  have hrun : chat_gpt_add_service_headers K hs ai_service
      = .ok (RETURN_ZERO,
          hs ++ ["Content-Type: application/json".toList,
                 "Authorization: Bearer ".toList ++ k.take 105]) := by
    simp only [chat_gpt_add_service_headers, hsd, hkey, curl_slist_append, key_header_eq,
      List.append_assoc, List.singleton_append]
  refine ⟨hrun, fun hle => ?_⟩
  rw [hrun, List.take_of_length_le hle]

/-- C10, at a concrete input: one header already in the list and the key
`sk-1`. -/
theorem C10_witness_short_key :
    chat_gpt_add_service_headers sample_consts ["Accept: text/plain".toList]
        (service_with_key sample_consts "sk-1".toList)
      = .ok (RETURN_ZERO,
          ["Accept: text/plain".toList, "Content-Type: application/json".toList,
           "Authorization: Bearer sk-1".toList]) :=
  (C10_headers_with_bounded_key sample_consts ["Accept: text/plain".toList]
    (service_with_key sample_consts "sk-1".toList) _ "sk-1".toList rfl (by decide)).2
    (by decide)

/-- C10 as stated fails for a long key: with a key of 106 chars the second
header carries its first 105 chars only. -/
theorem C10_counterexample_key_of_106_chars :
    chat_gpt_add_service_headers sample_consts []
        (service_with_key sample_consts (List.replicate 106 'k'))
      = .ok (RETURN_ZERO,
          ["Content-Type: application/json".toList,
           "Authorization: Bearer ".toList ++ List.replicate 105 'k']) ∧
    chat_gpt_add_service_headers sample_consts []
        (service_with_key sample_consts (List.replicate 106 'k'))
      ≠ .ok (RETURN_ZERO,
          ["Content-Type: application/json".toList,
           "Authorization: Bearer ".toList ++ List.replicate 106 'k']) := by
  constructor <;> decide


/-! ### chat_gpt_init_service_data and chat_gpt_post_header_maker -/

/-- What `chat_gpt_init_service_data` computes when the insight flag is clear
and the prompt option is resolved to `p`. -/
theorem init_service_data_eq (K : Consts) (H : Host) (ai_service : AIService)
    (service_data : ServiceData) (p data : CString)
    (hsd : ai_service.service_data = some service_data)
    (hflag : ai_service.function_flags &&& K.CHAT_GPT_FUNCTION_GET_INSIGHT = 0)
    (hp : get_option_value service_data.options K.OPTION_SERVICE_PROMPT = some p) :
    chat_gpt_init_service_data K H ai_service data
      = if (p ++ " \"".toList ++ data ++ "\"".toList).length + 1 ≤ K.SERVICE_DATA_SIZE then
          .ok (RETURN_ZERO,
            { ai_service with
              service_data := some
                { service_data with
                  max_request_size := K.SERVICE_MAX_REQUEST_SIZE
                  max_response_size := K.SERVICE_MAX_RESPONSE_SIZE
                  url := K.CHAT_GPT_API_URL
                  request := p ++ " \"".toList ++ data ++ "\"".toList }
              rest_request := some (H.init_rest_transfer
                { ai_service with
                  service_data := some
                    { service_data with
                      max_request_size := K.SERVICE_MAX_REQUEST_SIZE
                      max_response_size := K.SERVICE_MAX_RESPONSE_SIZE
                      url := K.CHAT_GPT_API_URL
                      request := p ++ " \"".toList ++ data ++ "\"".toList } }).1
              rest_response := some (H.init_rest_transfer
                { ai_service with
                  service_data := some
                    { service_data with
                      max_request_size := K.SERVICE_MAX_REQUEST_SIZE
                      max_response_size := K.SERVICE_MAX_RESPONSE_SIZE
                      url := K.CHAT_GPT_API_URL
                      request := p ++ " \"".toList ++ data ++ "\"".toList } }).2 })
        else .undefined := by
  simp only [chat_gpt_init_service_data, hsd, hflag, hp, ne_eq, not_true_eq_false, if_false]

/-- Whenever `chat_gpt_init_service_data` returns, its code is `RETURN_ZERO`. -/
theorem init_service_data_never_fails (K : Consts) (H : Host) (ai_service : AIService)
    (data : CString) (rv : Int) (ai_service' : AIService)
    (h : chat_gpt_init_service_data K H ai_service data = .ok (rv, ai_service')) :
    rv = RETURN_ZERO := by
  unfold chat_gpt_init_service_data at h
  cases hsd : ai_service.service_data with
  | none => simp [hsd] at h
  | some service_data =>
    simp only [hsd] at h
    generalize (if ai_service.function_flags &&& K.CHAT_GPT_FUNCTION_GET_INSIGHT ≠ 0
      then get_option_value service_data.options K.OPTION_INSIGHT_COLUMN
      else some data) = column_data at h
    cases hp : get_option_value service_data.options K.OPTION_SERVICE_PROMPT with
    | none => simp [hp] at h
    | some p =>
      cases column_data with
      | none => simp [hp] at h
      | some c =>
        simp only [hp] at h
        split at h
        · injection h with h
          injection h with h1 h2
          exact h1.symm
        · cases h


/-- When the composed text fits the array, `chat_gpt_init_service_data` returns
`RETURN_ZERO` and the request buffer holds exactly the composed text. -/
theorem request_of_init_service_data (K : Consts) (H : Host) (ai_service : AIService)
    (service_data : ServiceData) (p data : CString)
    (hsd : ai_service.service_data = some service_data)
    (hflag : ai_service.function_flags &&& K.CHAT_GPT_FUNCTION_GET_INSIGHT = 0)
    (hp : get_option_value service_data.options K.OPTION_SERVICE_PROMPT = some p)
    (hfit : (p ++ " \"".toList ++ data ++ "\"".toList).length + 1 ≤ K.SERVICE_DATA_SIZE) :
    ∃ ai_service',
      chat_gpt_init_service_data K H ai_service data = .ok (RETURN_ZERO, ai_service') ∧
      ai_service'.service_data.map (fun d => d.request)
        = some (p ++ " \"".toList ++ data ++ "\"".toList) := by
  rw [init_service_data_eq K H ai_service service_data p data hsd hflag hp, if_pos hfit]
  exact ⟨_, rfl, rfl⟩

/-- C6, what the code does instead: for a prompt `p` and an input `data` whose
composed request `p "data"` is longer than `SERVICE_MAX_REQUEST_SIZE`,
`chat_gpt_init_service_data` never returns a non-zero code; it returns
`RETURN_ZERO` with the whole oversized text written to the request buffer when
the array can hold it, and overruns the array (undefined behaviour) when it
cannot; `chat_gpt_post_header_maker` overruns its buffer when the composed body
is longer than `maxlen`. -/
theorem C6_oversized_request_is_not_rejected (K : Consts) (H : Host) (ai_service : AIService)
    (service_data : ServiceData) (p data : CString)
    (hsd : ai_service.service_data = some service_data)
    (hflag : ai_service.function_flags &&& K.CHAT_GPT_FUNCTION_GET_INSIGHT = 0)
    (hp : get_option_value service_data.options K.OPTION_SERVICE_PROMPT = some p)
    (_hbig : K.SERVICE_MAX_REQUEST_SIZE < (p ++ " \"".toList ++ data ++ "\"".toList).length) :
    (∀ rv ai_service',
      chat_gpt_init_service_data K H ai_service data = .ok (rv, ai_service') →
      rv = RETURN_ZERO) ∧
    ((p ++ " \"".toList ++ data ++ "\"".toList).length + 1 ≤ K.SERVICE_DATA_SIZE →
      ∃ ai_service',
        chat_gpt_init_service_data K H ai_service data = .ok (RETURN_ZERO, ai_service') ∧
        ai_service'.service_data.map (fun d => d.request)
          = some (p ++ " \"".toList ++ data ++ "\"".toList)) ∧
    (K.SERVICE_DATA_SIZE < (p ++ " \"".toList ++ data ++ "\"".toList).length + 1 →
      chat_gpt_init_service_data K H ai_service data = .undefined) ∧
    (∀ maxlen,
      maxlen < (CHAT_GPT_PREFIX ++ CHAT_GPT_DAVINCI_MODEL
                  ++ (p ++ " \"".toList ++ data ++ "\"".toList) ++ CHAT_GPT_POST_PROMPT).length →
      chat_gpt_post_header_maker maxlen (p ++ " \"".toList ++ data ++ "\"".toList)
        = .undefined) := by
  refine ⟨fun rv s' h => init_service_data_never_fails K H ai_service data rv s' h,
    fun hfit => request_of_init_service_data K H ai_service service_data p data hsd hflag hp hfit,
    fun hover => ?_, fun maxlen hlt => ?_⟩
  · rw [init_service_data_eq K H ai_service service_data p data hsd hflag hp,
      if_neg (Nat.not_le.mpr hover)]
  · unfold chat_gpt_post_header_maker
    simp only
    rw [if_neg (Nat.not_le.mpr hlt)]

/-- C6, at a concrete input: with a request limit of 16 and an array of 64
chars, the prompt `P` and an input of 20 chars are composed into 24 chars,
written in full, and the call returns `RETURN_ZERO`. -/
theorem C6_witness_request_of_24_chars :
    sample_consts.SERVICE_MAX_REQUEST_SIZE = 16 ∧
    ∃ ai_service',
      chat_gpt_init_service_data sample_consts paris_host (session_with_prompt [])
          (List.replicate 20 'a') = .ok (RETURN_ZERO, ai_service') ∧
      ai_service'.service_data.map (fun d => d.request)
        = some ("P \"".toList ++ List.replicate 20 'a' ++ "\"".toList) :=
  ⟨rfl,
   (C6_oversized_request_is_not_rejected sample_consts paris_host (session_with_prompt [])
      _ "P".toList (List.replicate 20 'a') rfl (by decide) (by decide) (by decide)).2.1
      (by decide)⟩


/-! ### pg_ai_image.c: counting transfers -/

theorem transfer_and_read_transfers (S : Service) (ai_service : AIService) (w : World) :
    (transfer_and_read S ai_service w).2.transfers = w.transfers + 1 := by
  unfold transfer_and_read
  cases S.rest_transfer ai_service with
  | raised msg => rfl
  | undefined => rfl
  | ok s => cases h : rest_response_data s <;> simp [h]

theorem accumulate_transfers (K : Consts) (S : Service) (fcinfo : FunctionCallInfo)
    (ai_service : AIService) (w : World) :
    (accumulate K S fcinfo ai_service w).2.transfers = w.transfers := by
  unfold accumulate
  cases fcinfo.args 1 with
  | none => rfl
  | some arg1 =>
    simp only
    cases S.set_service_data ai_service arg1 with
    | raised msg => rfl
    | undefined => rfl
    | ok r =>
      obtain ⟨rv, s⟩ := r
      by_cases hrv : rv = 0 <;> simp [hrv]

theorem transfn_transfers (K : Consts) (S : Service) (fcinfo : FunctionCallInfo) (w : World) :
    (pg_ai_generate_image_agg_transfn K S fcinfo w).2.transfers = w.transfers := by
  unfold pg_ai_generate_image_agg_transfn
  cases hctx : fcinfo.agg_context with
  | false => simp
  | true =>
    simp only [Bool.true_eq_false, if_false]
    cases hfn : w.fn_extra with
    | some s => simp only; exact accumulate_transfers K S fcinfo s w
    | none =>
      simp only
      cases S.initialize_service _ with
      | raised msg => rfl
      | undefined => rfl
      | ok r =>
        obtain ⟨rv, s⟩ := r
        by_cases hrv : rv = 0
        · simp only [hrv, ne_eq, not_true_eq_false, if_false]
          cases hsd : s.service_data with
          | none => rfl
          | some sd =>
            simp only
            cases S.set_and_validate_options _ fcinfo with
            | raised msg => rfl
            | undefined => rfl
            | ok r2 =>
              obtain ⟨rv2, s2⟩ := r2
              by_cases hrv2 : rv2 = 0
              · simp only [hrv2, ne_eq, not_true_eq_false, if_false]
                exact accumulate_transfers K S fcinfo s2 w
              · simp [hrv2]
        · simp [hrv]

theorem run_transfns_transfers (K : Consts) (S : Service) (rows : List FunctionCallInfo)
    (state : Datum) (w : World) :
    (run_transfns K S rows state w).2.transfers = w.transfers := by
  induction rows generalizing state w with
  | nil => rfl
  | cons fcinfo rows ih =>
    unfold run_transfns
    have h1 := transfn_transfers K S fcinfo w
    rcases hcall : pg_ai_generate_image_agg_transfn K S fcinfo w with ⟨r, w1⟩
    rw [hcall] at h1
    cases r with
    | ok state1 => simp only; rw [ih state1 w1]; exact h1
    | raised msg => exact h1
    | undefined => exact h1

theorem finalfn_transfers_le (S : Service) (state : Datum) (w : World) :
    (pg_ai_generate_image_agg_finalfn S state w).2.transfers ≤ w.transfers + 1 := by
  unfold pg_ai_generate_image_agg_finalfn
  cases state with
  | null => simp
  | text t => simp
  | service s =>
    simp only
    cases S.prepare_for_transfer s with
    | raised msg => simp
    | undefined => simp
    | ok r =>
      obtain ⟨rv, s1⟩ := r
      by_cases hrv : rv = 0
      · simp only [hrv, ne_eq, not_true_eq_false, if_false]
        rw [transfer_and_read_transfers]
      · simp [hrv]

theorem finalfn_transfers_of_prepared (S : Service) (ai_service ai_service' : AIService)
    (w : World) (hprep : S.prepare_for_transfer ai_service = .ok (0, ai_service')) :
    (pg_ai_generate_image_agg_finalfn S (.service ai_service) w).2.transfers
      = w.transfers + 1 := by
  unfold pg_ai_generate_image_agg_finalfn
  simp only [hprep, ne_eq, not_true_eq_false, if_false]
  exact transfer_and_read_transfers S ai_service' w

theorem finish_group_transfers_le (K : Consts) (S : Service) (rows : List FunctionCallInfo)
    (state : Datum) (w : World) :
    (finish_group K S rows state w).2.transfers ≤ w.transfers + 1 := by
  unfold finish_group
  have h1 := run_transfns_transfers K S rows state w
  rcases hrun : run_transfns K S rows state w with ⟨r, w1⟩
  rw [hrun] at h1
  cases r with
  | ok state1 =>
    simp only
    have := finalfn_transfers_le S state1 w1
    simp only at h1
    omega
  | raised msg => simp only at h1 ⊢; omega
  | undefined => simp only at h1 ⊢; omega

/-- C3: in an aggregate group, run as `k ≥ 0` calls of
`pg_ai_generate_image_agg_transfn` and one call of
`pg_ai_generate_image_agg_finalfn`, with the `REST_TRANSFER` invocations
counted: no transition call adds to the count, the whole group adds at most
one, and exactly one when the final call receives an established session whose
`prepare_for_transfer` succeeds. The count is of the invocations executed: a
run that ends in an error or in undefined behaviour executes none after that
point. -/
theorem C3_one_transfer_per_group (K : Consts) (S : Service) (rows : List FunctionCallInfo)
    (w : World) :
    (∀ fcinfo w1, (pg_ai_generate_image_agg_transfn K S fcinfo w1).2.transfers = w1.transfers) ∧
    (run_transfns K S rows .null w).2.transfers = w.transfers ∧
    (run_group K S rows w).2.transfers ≤ w.transfers + 1 ∧
    (∀ ai_service ai_service' w1,
      run_transfns K S rows .null w = (.ok (.service ai_service), w1) →
      S.prepare_for_transfer ai_service = .ok (0, ai_service') →
      (run_group K S rows w).2.transfers = w.transfers + 1) := by
  refine ⟨fun fcinfo w1 => transfn_transfers K S fcinfo w1,
    run_transfns_transfers K S rows .null w,
    finish_group_transfers_le K S rows .null w, ?_⟩
  intro s s' w1 hrun hprep
  have h1 := run_transfns_transfers K S rows .null w
  rw [hrun] at h1
  unfold run_group finish_group
  rw [hrun]
  simp only
  rw [finalfn_transfers_of_prepared S s s' w1 hprep]
  simp only at h1
  omega


/-- C3, at a concrete group: two rows `X` and `Y`, then the final call, count
one transfer. -/
theorem C3_witness_two_rows :
    (run_group sample_consts sample_service
        [sample_row (some "X".toList), sample_row (some "Y".toList)] world0).2.transfers
      = world0.transfers + 1 :=
  (C3_one_transfer_per_group sample_consts sample_service
      [sample_row (some "X".toList), sample_row (some "Y".toList)] world0).2.2.2
    (sample_session_after [sample_row (some "X".toList), sample_row (some "Y".toList)])
    (sample_session_after [sample_row (some "X".toList), sample_row (some "Y".toList)])
    { fn_extra := some (sample_session_after
        [sample_row (some "X".toList), sample_row (some "Y".toList)])
      transfers := 0 }
    (by decide) (by decide)

/-! ### pg_ai_image.c: NULL inputs and the NULL state -/

theorem world_with_fn_extra (w : World) (ai_service : AIService)
    (hw : w.fn_extra = some ai_service) : { w with fn_extra := some ai_service } = w := by
  cases w
  simp_all

theorem transfn_null_input_established (K : Consts) (S : Service) (fcinfo : FunctionCallInfo)
    (w : World) (ai_service : AIService) (hctx : fcinfo.agg_context = true)
    (hw : w.fn_extra = some ai_service) (hnull : fcinfo.args 1 = none) :
    pg_ai_generate_image_agg_transfn K S fcinfo w = (.ok (.service ai_service), w) := by
  unfold pg_ai_generate_image_agg_transfn
  simp only [hctx, Bool.true_eq_false, if_false, hw]
  unfold accumulate
  simp only [hnull]
  rw [world_with_fn_extra w ai_service hw]

theorem transfn_null_input_first_call (K : Consts) (S : Service) (fcinfo : FunctionCallInfo)
    (w : World) (s0 s1 : AIService) (service_data : ServiceData)
    (hctx : fcinfo.agg_context = true) (hw : w.fn_extra = none)
    (hnull : fcinfo.args 1 = none)
    (hinit : S.initialize_service
      { palloc0_AIService with
        function_flags :=
          palloc0_AIService.function_flags ||| K.FUNCTION_GENERATE_IMAGE_AGGREGATE }
      = .ok (0, s0))
    (hsd : s0.service_data = some service_data)
    (hval : S.set_and_validate_options
      { s0 with service_data := some { service_data with request := [] } } fcinfo
      = .ok (0, s1)) :
    pg_ai_generate_image_agg_transfn K S fcinfo w
      = (.ok (.service s1), { w with fn_extra := some s1 }) := by
  unfold pg_ai_generate_image_agg_transfn
  simp only [hctx, Bool.true_eq_false, if_false, hw, hinit, ne_eq, not_true_eq_false, hsd,
    hval]
  unfold accumulate
  simp only [hnull]

theorem run_transfns_null_rows_established (K : Consts) (S : Service)
    (rows : List FunctionCallInfo) (w : World) (ai_service : AIService)
    (hrows : ∀ fcinfo ∈ rows, fcinfo.agg_context = true ∧ fcinfo.args 1 = none)
    (hw : w.fn_extra = some ai_service) :
    run_transfns K S rows (.service ai_service) w = (.ok (.service ai_service), w) := by
  induction rows with
  | nil => rfl
  | cons fcinfo rows ih =>
    have hf := hrows fcinfo (List.mem_cons_self _ _)
    unfold run_transfns
    rw [transfn_null_input_established K S fcinfo w ai_service hf.1 hw hf.2]
    exact ih (fun f hfm => hrows f (List.mem_cons_of_mem _ hfm))

/-- A NULL state, which is what the final call gets for a group with no rows,
gives the text "Internal Error" and no transfer. -/
theorem finalfn_null_state (K : Consts) (S : Service) (w : World) :
    pg_ai_generate_image_agg_finalfn S .null w = (.ok "Internal Error".toList, w) ∧
    run_group K S [] w = (.ok "Internal Error".toList, w) :=
  ⟨rfl, rfl⟩

/-- C4, what the code does for a group whose rows all have a NULL input: the
first call sets the session up before it looks at the input, so the state
handed to the final call is that session and not NULL; the final call, which
tests the state only against NULL, runs `prepare_for_transfer` on it and, when
that succeeds, executes `REST_TRANSFER`, on a session for which
`SET_SERVICE_DATA` was never called. -/
theorem C4_all_null_group_is_transferred (K : Consts) (S : Service) (w : World)
    (fcinfo : FunctionCallInfo) (rows : List FunctionCallInfo) (s0 s1 : AIService)
    (service_data : ServiceData)
    (hrows : ∀ f ∈ fcinfo :: rows, f.agg_context = true ∧ f.args 1 = none)
    (hw : w.fn_extra = none)
    (hinit : S.initialize_service
      { palloc0_AIService with
        function_flags :=
          palloc0_AIService.function_flags ||| K.FUNCTION_GENERATE_IMAGE_AGGREGATE }
      = .ok (0, s0))
    (hsd : s0.service_data = some service_data)
    (hval : S.set_and_validate_options
      { s0 with service_data := some { service_data with request := [] } } fcinfo
      = .ok (0, s1)) :
    run_transfns K S (fcinfo :: rows) .null w
      = (.ok (.service s1), { w with fn_extra := some s1 }) ∧
    run_group K S (fcinfo :: rows) w
      = pg_ai_generate_image_agg_finalfn S (.service s1) { w with fn_extra := some s1 } ∧
    (∀ s2, S.prepare_for_transfer s1 = .ok (0, s2) →
      (run_group K S (fcinfo :: rows) w).2.transfers = w.transfers + 1) := by
  have hf := hrows fcinfo (List.mem_cons_self _ _)
  have hrun : run_transfns K S (fcinfo :: rows) .null w
      = (.ok (.service s1), { w with fn_extra := some s1 }) := by
    unfold run_transfns
    rw [transfn_null_input_first_call K S fcinfo w s0 s1 service_data hf.1 hw hf.2 hinit hsd
      hval]
    exact run_transfns_null_rows_established K S rows _ s1
      (fun f hfm => hrows f (List.mem_cons_of_mem _ hfm)) rfl
  have hgroup : run_group K S (fcinfo :: rows) w
      = pg_ai_generate_image_agg_finalfn S (.service s1) { w with fn_extra := some s1 } := by
    unfold run_group finish_group
    rw [hrun]
  refine ⟨hrun, hgroup, fun s2 hprep => ?_⟩
  rw [hgroup, finalfn_transfers_of_prepared S s1 s2 _ hprep]

/-- C4, at a concrete group: two rows with NULL inputs, the chat-gpt callbacks
and a `prepare_for_transfer` that succeeds. The session never got its transfer
structures, one `REST_TRANSFER` is executed, and the final call ends in
undefined behaviour (`chat_gpt_rest_transfer` writes through the NULL
`rest_response`) instead of returning "Internal Error". -/
theorem C4_witness_two_null_rows :
    (sample_session_after [sample_row none]).rest_response = none ∧
    (run_group sample_consts sample_service [sample_row none, sample_row none]
      world0).2.transfers = world0.transfers + 1 ∧
    (run_group sample_consts sample_service [sample_row none, sample_row none] world0).1
      = .undefined :=
  ⟨by decide,
   (C4_all_null_group_is_transferred sample_consts sample_service world0
      (sample_row none) [sample_row none] sample_initialized
      (sample_session_after [sample_row none]) _
      (by intro f hf; simp only [List.mem_cons, List.mem_singleton, List.not_mem_nil, or_false,
            or_self] at hf; subst hf; exact ⟨rfl, rfl⟩)
      rfl rfl rfl (by decide)).2.2
      (sample_session_after [sample_row none]) (by decide),
   by decide⟩

/-- C5, as the code has it: once the session of the group is established
(`fn_extra` is not NULL), a call of `pg_ai_generate_image_agg_transfn` with a
NULL input returns the handle of that session and changes neither the session,
its request buffer included, nor the transfer count; made when the transition
state is that handle, it leaves the later calls and the final call with the
results they have without it. -/
theorem C5_null_input_keeps_established_session (K : Consts) (S : Service)
    (fcinfo : FunctionCallInfo) (w : World) (ai_service : AIService)
    (hctx : fcinfo.agg_context = true) (hw : w.fn_extra = some ai_service)
    (hnull : fcinfo.args 1 = none) :
    pg_ai_generate_image_agg_transfn K S fcinfo w = (.ok (.service ai_service), w) ∧
    (∀ rows, run_transfns K S (fcinfo :: rows) (.service ai_service) w
      = run_transfns K S rows (.service ai_service) w) ∧
    (∀ rows, finish_group K S (fcinfo :: rows) (.service ai_service) w
      = finish_group K S rows (.service ai_service) w) := by
  have hstep := transfn_null_input_established K S fcinfo w ai_service hctx hw hnull
  have hrun : ∀ rows, run_transfns K S (fcinfo :: rows) (.service ai_service) w
      = run_transfns K S rows (.service ai_service) w := by
    intro rows
    conv_lhs => unfold run_transfns
    rw [hstep]
  refine ⟨hstep, hrun, fun rows => ?_⟩
  unfold finish_group
  rw [hrun rows]

/-- C5, at a concrete state: after the row `X` of a sample group, a row with a
NULL input returns the same session and leaves the world as it is. -/
theorem C5_witness_null_row_after_x :
    pg_ai_generate_image_agg_transfn sample_consts sample_service (sample_row none)
        { fn_extra := some (sample_session_after [sample_row (some "X".toList)]),
          transfers := 0 }
      = (.ok (.service (sample_session_after [sample_row (some "X".toList)])),
         { fn_extra := some (sample_session_after [sample_row (some "X".toList)]),
           transfers := 0 }) :=
  (C5_null_input_keeps_established_session sample_consts sample_service (sample_row none)
    { fn_extra := some (sample_session_after [sample_row (some "X".toList)]), transfers := 0 }
    (sample_session_after [sample_row (some "X".toList)]) rfl rfl rfl).1

/-- C5 as stated fails before the first call of a group: a NULL-input call
turns the NULL state into the handle of a new session and sets `fn_extra`;
the final call on that state executes `REST_TRANSFER`, where without the call
it returns "Internal Error" and executes none. -/
theorem C5_counterexample_null_first_row :
    (pg_ai_generate_image_agg_transfn sample_consts sample_service (sample_row none) world0).1
      = .ok (.service (sample_session_after [sample_row none])) ∧
    (pg_ai_generate_image_agg_transfn sample_consts sample_service (sample_row none) world0).1
      ≠ .ok .null ∧
    (pg_ai_generate_image_agg_transfn sample_consts sample_service (sample_row none) world0).2
      ≠ world0 ∧
    run_group sample_consts sample_service [] world0 = (.ok "Internal Error".toList, world0) ∧
    (run_group sample_consts sample_service [sample_row none] world0).2.transfers = 1 ∧
    (run_group sample_consts sample_service [sample_row none] world0).1
      ≠ .ok "Internal Error".toList := by
  refine ⟨by decide, by decide, by decide, by decide, by decide, by decide⟩

/-! ### pg_ai_image.c: failures before the transfer -/

/-- The scalar call: a failure of `initialize_service`, of
`SET_AND_VALIDATE_OPTIONS`, of `SET_SERVICE_DATA` or of `PREPARE_FOR_TRANSFER`
returns the text of its error code and leaves the transfer count as it was. -/
theorem pg_ai_generate_image_short_circuits (K : Consts) (S : Service)
    (fcinfo : FunctionCallInfo) (w : World) (arg0 : CString)
    (harg : fcinfo.args 0 = some arg0) :
    (∀ rv s0,
      S.initialize_service
        { palloc0_AIService with
          function_flags := palloc0_AIService.function_flags ||| K.FUNCTION_GENERATE_IMAGE }
        = .ok (rv, s0) →
      (rv ≠ 0 →
        pg_ai_generate_image K S fcinfo w = (.ok (K.GET_ERR_TEXT .UNSUPPORTED_SERVICE), w)) ∧
      (rv = 0 → ∀ rv1 s1, S.set_and_validate_options s0 fcinfo = .ok (rv1, s1) →
        (rv1 ≠ 0 →
          pg_ai_generate_image K S fcinfo w = (.ok (K.GET_ERR_TEXT .INVALID_OPTIONS), w)) ∧
        (rv1 = 0 → ∀ rv2 s2, S.set_service_data s1 arg0 = .ok (rv2, s2) →
          (rv2 ≠ 0 →
            pg_ai_generate_image K S fcinfo w = (.ok (K.GET_ERR_TEXT .INT_DATA_ERR), w)) ∧
          (rv2 = 0 → ∀ rv3 s3, S.prepare_for_transfer s2 = .ok (rv3, s3) →
            (rv3 ≠ 0 →
              pg_ai_generate_image K S fcinfo w
                = (.ok (K.GET_ERR_TEXT .INT_PREP_TNSFR), w)) ∧
            (rv3 = 0 →
              (pg_ai_generate_image K S fcinfo w).2.transfers = w.transfers + 1))))) := by
  intro rv s0 hinit
  refine ⟨fun hrv => ?_, fun hrv rv1 s1 hval => ⟨fun hrv1 => ?_, fun hrv1 rv2 s2 hdata =>
    ⟨fun hrv2 => ?_, fun hrv2 rv3 s3 hprep => ⟨fun hrv3 => ?_, fun hrv3 => ?_⟩⟩⟩⟩
  · simp [pg_ai_generate_image, harg, hinit, hrv]
  · subst hrv
    simp [pg_ai_generate_image, harg, hinit, hval, hrv1]
  · subst hrv; subst hrv1
    simp [pg_ai_generate_image, harg, hinit, hval, hdata, hrv2]
  · subst hrv; subst hrv1; subst hrv2
    simp [pg_ai_generate_image, harg, hinit, hval, hdata, hprep, hrv3]
  · subst hrv; subst hrv1; subst hrv2; subst hrv3
    simp [pg_ai_generate_image, harg, hinit, hval, hdata, hprep, transfer_and_read_transfers]

/-- C9, what the code does in the aggregate: when the first call of a group
fails option validation, `pg_ai_generate_image_agg_transfn` returns the text
of `INVALID_OPTIONS` as its result, which becomes the transition state, and
leaves `fn_extra` NULL; `pg_ai_generate_image_agg_finalfn` then takes that
pointer to a `text` value for an `AIService *` and calls through it: the
final call is undefined behaviour and the caller does not get the error text. -/
theorem C9_failed_validation_state_is_error_text (K : Consts) (S : Service)
    (fcinfo : FunctionCallInfo) (w : World) (s0 s1 : AIService) (service_data : ServiceData)
    (rv : Int)
    (hctx : fcinfo.agg_context = true) (hw : w.fn_extra = none)
    (hinit : S.initialize_service
      { palloc0_AIService with
        function_flags :=
          palloc0_AIService.function_flags ||| K.FUNCTION_GENERATE_IMAGE_AGGREGATE }
      = .ok (0, s0))
    (hsd : s0.service_data = some service_data)
    (hval : S.set_and_validate_options
      { s0 with service_data := some { service_data with request := [] } } fcinfo
      = .ok (rv, s1))
    (hrv : rv ≠ 0) :
    pg_ai_generate_image_agg_transfn K S fcinfo w
      = (.ok (.text (K.GET_ERR_TEXT .INVALID_OPTIONS)), w) ∧
    pg_ai_generate_image_agg_finalfn S (.text (K.GET_ERR_TEXT .INVALID_OPTIONS)) w
      = (.undefined, w) ∧
    run_group K S [fcinfo] w = (.undefined, w) := by
  have hstep : pg_ai_generate_image_agg_transfn K S fcinfo w
      = (.ok (.text (K.GET_ERR_TEXT .INVALID_OPTIONS)), w) := by
    unfold pg_ai_generate_image_agg_transfn
    simp only [hctx, Bool.true_eq_false, if_false, hw, hinit, ne_eq, not_true_eq_false, hsd,
      hval, hrv, not_false_eq_true, if_true]
  refine ⟨hstep, rfl, ?_⟩
  unfold run_group finish_group run_transfns
  rw [hstep]
  rfl

/-- C9, at a concrete group: a row without the key argument fails validation,
the state handed to the final call is the text of `INVALID_OPTIONS`, and the
final call is undefined behaviour. -/
theorem C9_witness_row_without_key :
    pg_ai_generate_image_agg_transfn sample_consts sample_service
        (sample_row_no_key (some "X".toList)) world0
      = (.ok (.text "Invalid options.".toList), world0) ∧
    run_group sample_consts sample_service [sample_row_no_key (some "X".toList)] world0
      = (.undefined, world0) :=
  have h := C9_failed_validation_state_is_error_text sample_consts sample_service
    (sample_row_no_key (some "X".toList)) world0
    sample_initialized (sample_options_stored (sample_row_no_key (some "X".toList))) _ 1
    rfl rfl rfl rfl (by decide) (by decide)
  ⟨h.1, h.2.2⟩

/-! ### pg_ai_image.c with chat_gpt_init_service_data: the request buffer -/

/-- C1, what the code does: with `SET_SERVICE_DATA` bound to
`chat_gpt_init_service_data`, a call of `pg_ai_generate_image_agg_transfn` with
a non-NULL input `t` on an established session leaves in the request buffer
the prompt, a space and `t` in double quotes, and nothing of what the buffer
held before: each row replaces the rows before it. -/
theorem C1_accumulate_replaces_request (K : Consts) (H : Host) (S : Service)
    (fcinfo : FunctionCallInfo) (w : World) (ai_service : AIService)
    (service_data : ServiceData) (p t : CString)
    (hS : S.set_service_data = chat_gpt_init_service_data K H)
    (hctx : fcinfo.agg_context = true) (hw : w.fn_extra = some ai_service)
    (hsd : ai_service.service_data = some service_data)
    (hflag : ai_service.function_flags &&& K.CHAT_GPT_FUNCTION_GET_INSIGHT = 0)
    (hp : get_option_value service_data.options K.OPTION_SERVICE_PROMPT = some p)
    (ht : fcinfo.args 1 = some t)
    (hfit : (p ++ " \"".toList ++ t ++ "\"".toList).length + 1 ≤ K.SERVICE_DATA_SIZE) :
    ∃ ai_service',
      pg_ai_generate_image_agg_transfn K S fcinfo w
        = (.ok (.service ai_service'), { w with fn_extra := some ai_service' }) ∧
      ai_service'.service_data.map (fun d => d.request)
        = some (p ++ " \"".toList ++ t ++ "\"".toList) := by
  obtain ⟨s', hcall, hreq⟩ :=
    request_of_init_service_data K H ai_service service_data p t hsd hflag hp hfit
  refine ⟨s', ?_, hreq⟩
  unfold pg_ai_generate_image_agg_transfn
  simp only [hctx, Bool.true_eq_false, if_false, hw]
  unfold accumulate
  simp only [ht, hS, hcall, RETURN_ZERO, ne_eq, not_true_eq_false, if_false]

/-- C1, at a concrete group: after the row `X` the request buffer is `P "X"`;
the row `Y` leaves `P "Y"`, and the body rendered from it by
`chat_gpt_post_header_maker` has no `X` in it. -/
theorem C1_witness_rows_x_then_y :
    (sample_session_after [sample_row (some "X".toList)]).service_data.map
        (fun d => d.request) = some "P \"X\"".toList ∧
    (∃ ai_service',
      pg_ai_generate_image_agg_transfn sample_consts sample_service
          (sample_row (some "Y".toList))
          { fn_extra := some (sample_session_after [sample_row (some "X".toList)]),
            transfers := 0 }
        = (.ok (.service ai_service'), { fn_extra := some ai_service', transfers := 0 }) ∧
      ai_service'.service_data.map (fun d => d.request) = some "P \"Y\"".toList) ∧
    chat_gpt_post_header_maker 1024 "P \"Y\"".toList
      = .ok ("\x7b\"model\":\"text-davinci-003\", \"prompt\":\"P \"Y\"\", ".toList
              ++ "\"max_tokens\": 1024 \x7d".toList) ∧
    'X' ∉ ("\x7b\"model\":\"text-davinci-003\", \"prompt\":\"P \"Y\"\", ".toList
              ++ "\"max_tokens\": 1024 \x7d".toList) :=
  ⟨by decide,
   C1_accumulate_replaces_request sample_consts paris_host sample_service
     (sample_row (some "Y".toList))
     { fn_extra := some (sample_session_after [sample_row (some "X".toList)]), transfers := 0 }
     (sample_session_after [sample_row (some "X".toList)]) _ "P".toList "Y".toList
     rfl rfl rfl rfl (by decide) (by decide) rfl (by decide),
   by decide, by decide⟩

end PgAi
